import Mathlib

/-!
Verification development for the A2A (agent-to-agent) orchestration core:
a shallow embedding of the task/context/event coordination code
(`src/a2a/server/tasks.py`, `src/a2a/server/request_handlers.py`,
`src/a2a/server/events/event_queue.py`, `src/a2a/server/agent_execution.py`,
`src/a2a/agent/coordinator.py`) together with theorems settling the
frozen specification claims about it.

Conventions of the embedding:
* Python `dict` objects (insertion-ordered key/value maps) are modelled as
  association lists `List (String × α)` with first-match lookup; assignment
  to an existing key replaces in place, assignment to a fresh key appends.
* `datetime.utcnow()` timestamps are modelled as an explicit `Nat` clock
  value passed in by the caller.
* Code that raises an exception is modelled with `Except String`.
* Python float constants (`0.8`, `0.2`, `0.3`) in the classification
  confidence formula are modelled as the rationals `4/5`, `1/5`, `3/10`.
-/

namespace A2A

/-! ## Python dict model -/

/-- Lookup `d[k]` as an `Option` (`dict.get`): first binding of key `k`. -/
def dget {α : Type} (d : List (String × α)) (k : String) : Option α :=
  (d.find? (fun p => p.1 == k)).map (fun p => p.2)

/-- Membership test `k in d`. -/
def dcontains {α : Type} (d : List (String × α)) (k : String) : Bool :=
  d.any (fun p => p.1 == k)

/-- Assignment `d[k] = v`: replace the binding in place when the key is
present, append a fresh binding otherwise (Python insertion order). -/
def dset {α : Type} (d : List (String × α)) (k : String) (v : α) :
    List (String × α) :=
  if dcontains d k then d.map (fun p => if p.1 == k then (k, v) else p)
  else d ++ [(k, v)]

/-- Deletion `del d[k]` (and `set.discard`): drop every binding of key `k`. -/
def ddel {α : Type} (d : List (String × α)) (k : String) : List (String × α) :=
  d.filter (fun p => p.1 != k)

/-- Keys of the dict are pairwise distinct (true of every real Python dict). -/
def keysNodup {α : Type} (d : List (String × α)) : Prop :=
  (d.map (fun p => p.1)).Nodup

theorem dget_dset_self {α : Type} (d : List (String × α)) (k : String) (v : α) :
    dget (dset d k v) k = some v := by
  unfold dget dset dcontains
  by_cases h : d.any (fun p => p.1 == k)
  · simp only [h, if_true]
    induction d with
    | nil => simp at h
    | cons p d ih =>
      by_cases hp : p.1 == k
      · simp [List.find?, hp]
      · simp only [List.any_cons, hp, Bool.false_or] at h
        simpa [List.find?, hp] using ih h
  · simp only [h, if_false]
    induction d with
    | nil => simp [List.find?]
    | cons p d ih =>
      simp only [List.any_cons, Bool.or_eq_true] at h
      push_neg at h
      have hp : (p.1 == k) = false := by
        cases hb : p.1 == k
        · rfl
        · exact absurd hb h.1
      simpa [List.find?, hp] using ih h.2

theorem dget_ddel_self {α : Type} (d : List (String × α)) (k : String) :
    dget (ddel d k) k = none := by
  unfold dget ddel
  induction d with
  | nil => simp
  | cons p d ih =>
    by_cases hp : p.1 == k
    · simp only [List.filter, bne, hp, Bool.not_true]
      exact ih
    · have hpb : (p.1 == k) = false := by
        cases hb : p.1 == k
        · rfl
        · exact absurd hb hp
      simp only [List.filter, bne, hpb, Bool.not_false, List.find?]
      exact ih

theorem keysNodup_dset {α : Type} (d : List (String × α)) (k : String) (v : α)
    (h : keysNodup d) : keysNodup (dset d k v) := by
  unfold keysNodup at *
  unfold dset
  by_cases hc : dcontains d k
  · rw [if_pos hc]
    have hmap : (d.map (fun p => if p.1 == k then (k, v) else p)).map
        (fun p => p.1) = d.map (fun p => p.1) := by
      rw [List.map_map]
      apply List.map_congr_left
      intro p _
      by_cases hp : p.1 = k
      · simp [hp]
      · simp [hp]
    rw [hmap]
    exact h
  · rw [if_neg hc]
    rw [List.map_append]
    simp only [List.map_cons, List.map_nil]
    rw [List.nodup_append]
    refine ⟨h, List.nodup_singleton k, ?_⟩
    intro a ha
    simp only [List.mem_singleton]
    intro hak
    subst hak
    unfold dcontains at hc
    simp only [List.any_eq_true, not_exists] at hc
    push_neg at hc
    simp only [List.mem_map] at ha
    obtain ⟨p, hp, hpk⟩ := ha
    exact hc p hp (by simpa using hpk)

theorem keysNodup_ddel {α : Type} (d : List (String × α)) (k : String)
    (h : keysNodup d) : keysNodup (ddel d k) := by
  unfold keysNodup at *
  unfold ddel
  exact List.Nodup.sublist (List.Sublist.map (fun p => p.1)
    (List.filter_sublist d)) h

theorem countKey_le_one {α : Type} (d : List (String × α)) (k : String)
    (h : keysNodup d) : d.countP (fun p => p.1 == k) ≤ 1 := by
  unfold keysNodup at h
  induction d with
  | nil => simp
  | cons p d ih =>
    simp only [List.map_cons, List.nodup_cons] at h
    by_cases hp : p.1 = k
    · have hzero : d.countP (fun q => q.1 == k) = 0 := by
        rw [List.countP_eq_zero]
        intro q hq hqk
        apply h.1
        rw [hp]
        have hqk' : q.1 = k := by simpa using hqk
        rw [← hqk']
        exact List.mem_map_of_mem (fun r => r.1) hq
      simp only [List.countP_cons, hzero]
      simp [hp]
    · have hpb : (p.1 == k) = false := by simpa using hp
      simp only [List.countP_cons, hpb]
      simpa using ih h.2

/-! ## Core enumerations and records (`src/a2a/types.py`) -/

/-- States that a task can be in (`TaskState`). -/
inductive TaskState where
  | created
  | assigned
  | working
  | input_required
  | waiting_for_handoff
  | completed
  | failed
  | cancelled
deriving DecidableEq, Repr

/-- Terminal task states per the request-handler state machine:
completed, failed and cancelled admit no further transition. -/
def TaskState.isTerminal : TaskState → Bool
  | .completed => true
  | .failed => true
  | .cancelled => true
  | _ => false

/-- Types of events in the A2A system (`EventType`). -/
inductive EventType where
  | task_created
  | task_status_update
  | task_artifact_update
  | agent_handoff
  | agent_registration
  | agent_heartbeat
  | system_error
deriving DecidableEq, Repr

/-- Message from an agent to a user or another agent (`AgentMessage`);
only the fields the verified code paths touch are carried. -/
structure AgentMessage where
  content : String
  agent_id : String
  task_id : String
  context_id : String
deriving DecidableEq, Repr

/-- A task record (`Task`): the fields read or written by the task store,
the status-update listener and the coordinator. -/
structure Task where
  id : String
  contextId : String
  state : TaskState
  assigned_agent : Option String
  created_at : Nat
  updated_at : Nat
  last_message : Option String
deriving DecidableEq, Repr

/-- Current status of a task (`TaskStatus`). -/
structure TaskStatus where
  state : TaskState
  message : Option AgentMessage
  error_details : Option String
deriving DecidableEq, Repr

/-- Event fired when a task status changes (`TaskStatusUpdateEvent`). -/
structure TaskStatusUpdateEvent where
  taskId : String
  status : TaskStatus
  final : Bool
  contextId : String
deriving DecidableEq, Repr

/-! ## Keyword classification (`A2ACoordinatorAgent._simple_classification`) -/

/-- Python substring containment `needle in hay` on character lists. -/
def strContains (hay needle : List Char) : Bool :=
  match hay with
  | [] => needle.isEmpty
  | _ :: t => needle.isPrefixOf hay || strContains t needle

/-- Python `str.lower()` on a character list. -/
def lowerChars (s : List Char) : List Char :=
  s.map Char.toLower

/-- Keyword patterns for each domain, in the source's dict insertion order
(`domain_patterns` in `_simple_classification`). -/
def domainPatterns : List (String × List String) :=
  [("interior_design",
    ["design", "color", "paint", "room", "style", "decor",
     "furniture", "interior", "aesthetic"]),
   ("inventory",
    ["stock", "available", "inventory", "in store", "quantity",
     "do you have", "is there"]),
   ("customer_loyalty",
    ["discount", "loyalty", "points", "member", "reward",
     "savings", "deal"]),
   ("cart_management",
    ["cart", "add", "remove", "purchase", "buy", "checkout",
     "order", "item"]),
   ("cora",
    ["help", "information", "question", "what is", "tell me about"])]

/-- Number of a domain's keywords occurring in the lower-cased message
(`sum(1 for keyword in keywords if keyword in message_lower)`). -/
def domainScore (messageLower : List Char) (keywords : List String) : Nat :=
  (keywords.filter (fun k => strContains messageLower k.toList)).length

/-- The `scores` dict: domains with a positive match count, in pattern order. -/
def classificationScores (messageLower : List Char) : List (String × Nat) :=
  (domainPatterns.map (fun p => (p.1, domainScore messageLower p.2))).filter
    (fun p => 0 < p.2)

/-- Python `max(scores, key=scores.get)`: the first entry attaining the
maximal score wins ties. -/
def argmaxFirst : List (String × Nat) → Option (String × Nat)
  | [] => none
  | p :: ps =>
    match argmaxFirst ps with
    | none => some p
    | some q => if q.2 > p.2 then some q else some p

/-- Result of the keyword classification: domain and confidence
(the `reasoning` string is presentation only and is not modelled). -/
structure Classification where
  domain : String
  confidence : ℚ
deriving DecidableEq, Repr

/-- The keyword-based classification fallback
(`A2ACoordinatorAgent._simple_classification`): score every domain's
keywords against the lower-cased message, pick the best-scoring domain with
confidence `min(0.8, score * 0.2)`, and default to `product_management`
at confidence `0.3` when no keyword matches. -/
def simple_classification (user_message : List Char) : Classification :=
  let messageLower := lowerChars user_message
  match argmaxFirst (classificationScores messageLower) with
  | some p => { domain := p.1, confidence := min (4/5 : ℚ) (p.2 * (1/5 : ℚ)) }
  | none => { domain := "product_management", confidence := 3/10 }

theorem dcontains_of_dget {α : Type} (d : List (String × α)) (k : String)
    (v : α) (h : dget d k = some v) : dcontains d k = true := by
  unfold dget at h
  unfold dcontains
  induction d with
  | nil => simp at h
  | cons p d ih =>
    by_cases hp : p.1 == k
    · simp [hp]
    · have hpb : (p.1 == k) = false := by
        cases hb : p.1 == k
        · rfl
        · exact absurd hb hp
      simp only [List.find?, hpb] at h
      simp only [List.any_cons, hpb, Bool.false_or]
      exact ih h

/-! ## Task store (`InMemoryTaskStore`) and the status-update listener
(`DefaultRequestHandler._handle_task_status_update`) -/

/-- `InMemoryTaskStore.get_task`: dictionary lookup by task id. -/
def get_task (store : List (String × Task)) (task_id : String) : Option Task :=
  dget store task_id

/-- `InMemoryTaskStore.update_task`: when the id is known, refresh
`updated_at` and store the caller-supplied record as-is (no guard of any
kind on the state field); silently no-op on an unknown id. -/
def update_task (store : List (String × Task)) (task : Task) (now : Nat) :
    List (String × Task) :=
  if dcontains store task.id then
    dset store task.id { task with updated_at := now }
  else store

/-- `DefaultRequestHandler._handle_task_status_update`: load the referenced
task; if present, overwrite its state with the event's state
(unconditionally), refresh `updated_at`, record the status message text in
metadata when one is carried, and persist via `update_task`. -/
def handle_task_status_update (store : List (String × Task))
    (event : TaskStatusUpdateEvent) (now : Nat) : List (String × Task) :=
  match get_task store event.taskId with
  | none => store
  | some task =>
    let task' : Task :=
      { task with
        state := event.status.state
        updated_at := now
        last_message :=
          match event.status.message with
          | some m => some m.content
          | none => task.last_message }
    update_task store task' now

/-! ## Base executor (`BaseAgentExecutor.execute`, `_handle_execution_error`) -/

/-- Process-local execution metrics of a `BaseAgentExecutor`. -/
structure ExecStats where
  execution_count : Nat
  error_count : Nat
deriving DecidableEq, Repr

/-- Outcome of the concrete `_execute_impl` body: it either returns
normally or raises an exception with the given message. -/
inductive ImplOutcome where
  | ok
  | raises (msg : String)
deriving DecidableEq, Repr

/-- Context for agent request execution (`RequestContext`); `contextId`
abbreviates `task_context.id`. -/
structure RequestContext where
  message : AgentMessage
  contextId : String
  current_task : Option Task
deriving DecidableEq, Repr

/-- User-facing prefix of the synthesized failure message in
`_handle_execution_error`. -/
def errorMessagePrefix : String :=
  "I apologize, but I encountered an error while processing your request: "

/-- `BaseAgentExecutor._handle_execution_error`: when the request has a
current task, publish one terminal failed status-update event carrying the
error's message; when it has none, publish nothing at all. -/
def handle_execution_error (agent_name : String) (ctx : RequestContext)
    (err : String) : List TaskStatusUpdateEvent :=
  match ctx.current_task with
  | some t =>
    [{ taskId := t.id
       status :=
         { state := TaskState.failed
           message := some
             { content := errorMessagePrefix ++ err
               agent_id := agent_name
               task_id := t.id
               context_id := ctx.contextId }
           error_details := some err }
       final := true
       contextId := ctx.contextId }]
  | none => []

/-- `BaseAgentExecutor.execute`: increment the execution counter first,
then run the concrete logic; every exception is caught (the function is
total, so nothing propagates to the caller), the error counter is
incremented, and `_handle_execution_error`'s events are published. The
second component is the list of events the wrapper itself publishes. -/
def base_execute (stats : ExecStats) (agent_name : String)
    (ctx : RequestContext) (outcome : ImplOutcome) :
    ExecStats × List TaskStatusUpdateEvent :=
  let stats1 : ExecStats :=
    { execution_count := stats.execution_count + 1
      error_count := stats.error_count }
  match outcome with
  | .ok => (stats1, [])
  | .raises err =>
    ({ stats1 with error_count := stats1.error_count + 1 },
     handle_execution_error agent_name ctx err)

/-! ## Event queue (`src/a2a/server/events/event_queue.py`) -/

/-- Base class fields of every A2A event (`BaseEvent`); the queue code
reads only these. -/
structure BaseEvent where
  id : String
  type : EventType
  contextId : String
  timestamp : Nat
deriving DecidableEq, Repr

/-- Buffered state of an `EventQueue`: `events` is the
`deque(maxlen=max_size)` with the oldest event first (appends on the
right). Subscriber callbacks never mutate the buffer. -/
structure EventQueueState where
  max_size : Nat
  events : List BaseEvent
deriving DecidableEq, Repr

/-- `EventQueue.enqueue_event`: `self._events.append(event)` on a
`deque(maxlen=max_size)` keeps the last `max_size` elements, silently
dropping the oldest on overflow. -/
def enqueue_event (q : EventQueueState) (e : BaseEvent) : EventQueueState :=
  { q with events := (q.events ++ [e]).drop (q.events.length + 1 - q.max_size) }

/-- `EventQueue.get_events_for_context` (the `query` operation): filter the
buffer by context id, optionally by type, sort most-recent-first, and slice
`events[:limit]` only when `limit` is truthy (`if limit:` skips both `None`
and `0`). -/
def get_events_for_context (q : EventQueueState) (context_id : String)
    (event_types : Option (List EventType)) (limit : Option Nat) :
    List BaseEvent :=
  let evs := q.events.filter (fun e => e.contextId == context_id)
  let evs :=
    match event_types with
    | some ts => evs.filter (fun (e : BaseEvent) => ts.contains e.type)
    | none => evs
  let evs := evs.mergeSort (fun a b => decide (b.timestamp ≤ a.timestamp))
  match limit with
  | some (n + 1) => evs.take (n + 1)
  | _ => evs

/-- `EventQueue.clear_context_events`: rebuild the buffer without the
events of one context; returns the number removed. -/
def clear_context_events (q : EventQueueState) (context_id : String) :
    Nat × EventQueueState :=
  let kept := q.events.filter (fun e => e.contextId != context_id)
  (q.events.length - kept.length, { q with events := kept })

/-! ## Context store (`InMemoryContextStore`) and request handler
(`DefaultRequestHandler.handle_request`) -/

/-- Conversation-history entry written by `add_to_conversation_history`
(`role`/`content`/`timestamp` dict). -/
structure HistEntry where
  role : String
  content : String
  timestamp : Nat
deriving DecidableEq, Repr

/-- Context information for task execution (`TaskContext`); the fields the
verified code paths touch (`shared_data` is carried nowhere below). -/
structure TaskContext where
  id : String
  session_id : String
  user_id : Option String
  conversation_history : List HistEntry
  updated_at : Nat
deriving DecidableEq, Repr

/-- `InMemoryContextStore.get_context`. -/
def get_context (cs : List (String × TaskContext)) (context_id : String) :
    Option TaskContext :=
  dget cs context_id

/-- `InMemoryContextStore.create_context`: `self._contexts[context.id] = context`. -/
def create_context (cs : List (String × TaskContext)) (c : TaskContext) :
    List (String × TaskContext) :=
  dset cs c.id c

/-- `InMemoryContextStore.update_context`: refresh `updated_at` and store
when the id is known; silently no-op otherwise. -/
def update_context (cs : List (String × TaskContext)) (c : TaskContext)
    (now : Nat) : List (String × TaskContext) :=
  if dcontains cs c.id then dset cs c.id { c with updated_at := now } else cs

/-- `add_to_conversation_history` (`src/a2a/utils.py`): append one
role/content/timestamp entry and refresh `updated_at`. -/
def add_to_conversation_history (c : TaskContext) (role content : String)
    (now : Nat) : TaskContext :=
  { c with
    conversation_history :=
      c.conversation_history ++ [{ role := role, content := content, timestamp := now }]
    updated_at := now }

/-- Branch of `DefaultRequestHandler.handle_request` taken when no truthy
`context_id` is supplied: create a fresh context (id `fresh_id`), append
the user message to its history, persist, and return the context. -/
def handle_request_new (cs : List (String × TaskContext))
    (user_message session_id : String) (user_id : Option String)
    (fresh_id : String) (now : Nat) :
    Except String (List (String × TaskContext) × TaskContext) :=
  let c : TaskContext :=
    { id := fresh_id, session_id := session_id, user_id := user_id
      conversation_history := [], updated_at := now }
  let cs1 := create_context cs c
  let c' := add_to_conversation_history c "user" user_message now
  Except.ok (update_context cs1 c' now, c')

/-- Synchronous part of `DefaultRequestHandler.handle_request`: resolve the
context (`if context_id:` is Python truthiness, so `None` and `""` both
take the create branch; an unknown truthy id raises `ValueError` before
any mutation), append the inbound text to the conversation history as a
`"user"` entry, persist, and return. The asynchronous executor launch
happens after these steps and mutates no context-store state itself. -/
def handle_request (cs : List (String × TaskContext))
    (user_message session_id : String) (user_id : Option String)
    (context_id : Option String) (fresh_id : String) (now : Nat) :
    Except String (List (String × TaskContext) × TaskContext) :=
  match context_id with
  | some cid =>
    if cid.isEmpty then
      handle_request_new cs user_message session_id user_id fresh_id now
    else
      match get_context cs cid with
      | none => Except.error ("Context " ++ cid ++ " not found")
      | some c =>
        let c' := add_to_conversation_history c "user" user_message now
        Except.ok (update_context cs c' now, c')
  | none => handle_request_new cs user_message session_id user_id fresh_id now

/-- Context-store contents after a `handle_request` call: unchanged when
the call raised (`ValueError` propagates before any mutation). -/
def handle_request_store (cs : List (String × TaskContext))
    (user_message session_id : String) (user_id : Option String)
    (context_id : Option String) (fresh_id : String) (now : Nat) :
    List (String × TaskContext) :=
  match handle_request cs user_message session_id user_id context_id fresh_id now with
  | Except.ok r => r.1
  | Except.error _ => cs

/-- Sequential `handle_request` calls on the same explicit context id, each
message paired with its arrival clock. -/
def handle_requests_seq (cs : List (String × TaskContext))
    (cid session_id : String) :
    List (String × Nat) → Except String (List (String × TaskContext))
  | [] => Except.ok cs
  | (m, now) :: rest =>
    match handle_request cs m session_id none (some cid) "" now with
    | Except.error e => Except.error e
    | Except.ok r => handle_requests_seq r.1 cid session_id rest

/-- History entries the handler appends for a sequence of inbound user
messages. -/
def userEntries (msgs : List (String × Nat)) : List HistEntry :=
  msgs.map (fun p => { role := "user", content := p.1, timestamp := p.2 })

/-! ## Coordinator routing (`A2ACoordinatorAgent._route_to_agent`,
`_handle_handoff_event`) -/

/-- Keys of the coordinator's registered executor map `self.agents`
(`A2ACoordinatorAgent.__init__`). -/
def registeredAgents : List String :=
  ["orchestrator", "cropping_agent", "background_agent",
   "thumbnail_generator", "video_agent"]

/-- Domain substitution at the top of `_route_to_agent`: a domain absent
from `self.agents` is replaced by the designated default
`"product_management"`. -/
def resolve_dispatch_domain (domain : String) : String :=
  if registeredAgents.contains domain then domain else "product_management"

/-- The subscript `self.agents[domain]` performed right after the
substitution: `Except.error d` models the `KeyError(d)` Python raises when
`d` is not a key of the map. -/
def route_to_agent_lookup (domain : String) : Except String String :=
  let d := resolve_dispatch_domain domain
  if registeredAgents.contains d then Except.ok d else Except.error d

/-- Effect of `_route_to_agent` on the `active_handoffs` tracking map:
after the default substitution and a successful `self.agents[domain]`
lookup, record `task_id -> domain`; during the delegate's `execute`, each
handoff event re-points the entry (`_handle_handoff_event`); on exception
the `except` block deletes the entry and re-raises, and the `finally`
block deletes it again — so success and failure end identically. When the
lookup raises `KeyError`, the map is never touched. -/
def route_to_agent_map (m : List (String × String)) (task_id domain0 : String)
    (handoffEvents : List (String × String)) : List (String × String) :=
  let domain := resolve_dispatch_domain domain0
  if registeredAgents.contains domain then
    ddel (handoffEvents.foldl (fun acc e => dset acc e.1 e.2)
      (dset m task_id domain)) task_id
  else m

/-- Every intermediate state the `active_handoffs` map passes through
during `_route_to_agent`: before tracking, after recording the dispatch,
after each handoff event handled mid-flight, and after the guaranteed
cleanup. -/
def route_states (m : List (String × String)) (task_id domain0 : String)
    (handoffEvents : List (String × String)) :
    List (List (String × String)) :=
  let domain := resolve_dispatch_domain domain0
  if registeredAgents.contains domain then
    (m :: List.scanl (fun acc e => dset acc e.1 e.2)
        (dset m task_id domain) handoffEvents)
      ++ [route_to_agent_map m task_id domain0 handoffEvents]
  else [m]

/-! ## Cascade delete (`DefaultRequestHandler.clear_context`) -/

/-- `InMemoryContextStore.delete_context`: remove the binding and report
whether one existed. -/
def delete_context (cs : List (String × TaskContext)) (context_id : String) :
    Bool × List (String × TaskContext) :=
  if dcontains cs context_id then (true, ddel cs context_id) else (false, cs)

/-- `InMemoryTaskStore.list_tasks`: all tasks, filtered by owning context
(`if context_id:` truthiness) and by state when given, sorted
newest-created-first, truncated to `limit` (default 100). -/
def list_tasks (ts : List (String × Task)) (context_id : Option String)
    (state : Option TaskState) (limit : Nat) : List Task :=
  let tasks := ts.map (fun p => p.2)
  let tasks :=
    match context_id with
    | some cid =>
      if cid.isEmpty then tasks else tasks.filter (fun t => t.contextId == cid)
    | none => tasks
  let tasks :=
    match state with
    | some s => tasks.filter (fun (t : Task) => t.state == s)
    | none => tasks
  (tasks.mergeSort (fun a b => decide (b.created_at ≤ a.created_at))).take limit

/-- `InMemoryTaskStore.delete_task`. -/
def delete_task (ts : List (String × Task)) (task_id : String) :
    Bool × List (String × Task) :=
  if dcontains ts task_id then (true, ddel ts task_id) else (false, ts)

/-- Combined in-memory state `clear_context` operates over. -/
structure SystemState where
  contexts : List (String × TaskContext)
  queue : EventQueueState
  tasks : List (String × Task)
deriving DecidableEq, Repr

/-- `DefaultRequestHandler.clear_context`: delete the context; only on
success clear its buffered events and delete the tasks returned by
`list_tasks(context_id=cid)` (default limit 100); on failure return
`False` with everything untouched. -/
def clear_context (s : SystemState) (context_id : String) : Bool × SystemState :=
  let r := delete_context s.contexts context_id
  if r.1 then
    let q' := (clear_context_events s.queue context_id).2
    let doomed := list_tasks s.tasks (some context_id) none 100
    let ts' := doomed.foldl (fun acc (t : Task) => (delete_task acc t.id).2) s.tasks
    (true, { contexts := r.2, queue := q', tasks := ts' })
  else
    (false, { contexts := r.2, queue := s.queue, tasks := s.tasks })

/-! ## Claim theorems -/

theorem simple_classification_eq (msg : List Char) :
    simple_classification msg =
      match argmaxFirst (classificationScores (lowerChars msg)) with
      | some p => { domain := p.1, confidence := min (4/5 : ℚ) (p.2 * (1/5 : ℚ)) }
      | none => { domain := "product_management", confidence := 3/10 } := rfl

/-- C6: the keyword-based fallback classifier returns confidence
`min(0.8, matches * 0.2)` where `matches` is the winning domain's
keyword-match count (monotonic non-decreasing in the match count and
bounded above by `0.8`), and an input matching zero keywords yields the
designated fallback domain `product_management` at low confidence `0.3`. -/
theorem C6_keyword_confidence_formula (user_message : List Char) :
    (simple_classification user_message).confidence ≤ 4/5 ∧
    (∀ d s, argmaxFirst (classificationScores (lowerChars user_message)) = some (d, s) →
      simple_classification user_message =
        { domain := d, confidence := min (4/5 : ℚ) (s * (1/5 : ℚ)) }) ∧
    (classificationScores (lowerChars user_message) = [] →
      simple_classification user_message =
        { domain := "product_management", confidence := 3/10 }) ∧
    (∀ s1 s2 : ℕ, s1 ≤ s2 →
      min (4/5 : ℚ) (s1 * (1/5 : ℚ)) ≤ min (4/5 : ℚ) (s2 * (1/5 : ℚ))) := by
  refine ⟨?_, ?_, ?_, ?_⟩
  · rw [simple_classification_eq]
    cases h : argmaxFirst (classificationScores (lowerChars user_message)) with
    | none =>
      show (3 : ℚ)/10 ≤ 4/5
      norm_num
    | some p => exact min_le_left _ _
  · intro d s h
    rw [simple_classification_eq, h]
  · intro h
    rw [simple_classification_eq, h]
    rfl
  · intro s1 s2 h
    refine min_le_min le_rfl ?_
    have : (s1 : ℚ) ≤ (s2 : ℚ) := by exact_mod_cast h
    nlinarith

/-- Witness for C6 at a concrete input: three of the `cart_management`
keywords occur in the lower-cased message, so the formula gives
`min(0.8, 3 * 0.2) = 0.6`. -/
theorem C6_witness :
    simple_classification ("Add this item to my cart".toList) =
      { domain := "cart_management", confidence := min (4/5 : ℚ) ((3 : ℕ) * (1/5 : ℚ)) } :=
  (C6_keyword_confidence_formula ("Add this item to my cart".toList)).2.1
    "cart_management" 3 (by decide)

/-- C2: the claim says an unregistered classified domain is silently
replaced by the default and the default executor is invoked without error.
The code does substitute `"product_management"` — but that name is not a
key of `self.agents` (whose keys are exactly `registeredAgents`), so the
subscript `self.agents[domain]` right after the substitution raises
`KeyError("product_management")` instead of dispatching. Evaluated here at
the classified domain `"interior_design"` and at the default itself. -/
theorem C2_dispatch_default_keyerror :
    resolve_dispatch_domain "interior_design" = "product_management" ∧
    registeredAgents.contains "product_management" = false ∧
    route_to_agent_lookup "interior_design" = Except.error "product_management" ∧
    route_to_agent_lookup "product_management" = Except.error "product_management" :=
  ⟨by decide, by decide, rfl, rfl⟩

/-- C3: when the concrete `_execute_impl` raises and the request has a
current task, `execute` returns normally (it is total: nothing
propagates), the execution counter and the error counter each increase by
exactly 1, and exactly one terminal failed status-update event with
`final = true` carrying the error's message is published for that task. -/
theorem C3_executor_error_containment (stats : ExecStats) (agent err : String)
    (ctx : RequestContext) (t : Task) (h : ctx.current_task = some t) :
    (base_execute stats agent ctx (ImplOutcome.raises err)).1.execution_count
        = stats.execution_count + 1 ∧
    (base_execute stats agent ctx (ImplOutcome.raises err)).1.error_count
        = stats.error_count + 1 ∧
    (base_execute stats agent ctx (ImplOutcome.raises err)).2 =
      [{ taskId := t.id
         status :=
           { state := TaskState.failed
             message := some
               { content := errorMessagePrefix ++ err
                 agent_id := agent
                 task_id := t.id
                 context_id := ctx.contextId }
             error_details := some err }
         final := true
         contextId := ctx.contextId }] ∧
    ∀ e ∈ (base_execute stats agent ctx (ImplOutcome.raises err)).2,
      e.final = true ∧ e.status.state = TaskState.failed ∧
      e.status.state.isTerminal = true ∧ e.taskId = t.id := by
  unfold base_execute handle_execution_error
  rw [h]
  refine ⟨rfl, rfl, rfl, ?_⟩
  intro e he
  simp only [List.mem_singleton] at he
  subst he
  exact ⟨rfl, rfl, rfl, rfl⟩

/-- Witness for C3 at a concrete execution. -/
theorem C3_witness :
    (base_execute { execution_count := 4, error_count := 1 } "AgentX"
        { message := { content := "do it", agent_id := "user", task_id := "t9", context_id := "c9" }
          contextId := "c9"
          current_task := some
            { id := "t9", contextId := "c9", state := TaskState.working
              assigned_agent := none, created_at := 0, updated_at := 0
              last_message := none } }
        (ImplOutcome.raises "boom")).1.execution_count = 4 + 1 ∧
    (base_execute { execution_count := 4, error_count := 1 } "AgentX"
        { message := { content := "do it", agent_id := "user", task_id := "t9", context_id := "c9" }
          contextId := "c9"
          current_task := some
            { id := "t9", contextId := "c9", state := TaskState.working
              assigned_agent := none, created_at := 0, updated_at := 0
              last_message := none } }
        (ImplOutcome.raises "boom")).1.error_count = 1 + 1 :=
  have h := C3_executor_error_containment { execution_count := 4, error_count := 1 }
    "AgentX" "boom"
    { message := { content := "do it", agent_id := "user", task_id := "t9", context_id := "c9" }
      contextId := "c9"
      current_task := some
        { id := "t9", contextId := "c9", state := TaskState.working
          assigned_agent := none, created_at := 0, updated_at := 0
          last_message := none } }
    { id := "t9", contextId := "c9", state := TaskState.working
      assigned_agent := none, created_at := 0, updated_at := 0
      last_message := none } rfl
  ⟨h.1, h.2.1⟩

/-- C9: when the concrete logic raises while the request has no current
task, the error-handling path publishes no event at all — only the error
counter records the failure. -/
theorem C9_error_without_task_publishes_nothing (stats : ExecStats)
    (agent err : String) (ctx : RequestContext) (h : ctx.current_task = none) :
    (base_execute stats agent ctx (ImplOutcome.raises err)).2 = [] ∧
    (base_execute stats agent ctx (ImplOutcome.raises err)).1.error_count
        = stats.error_count + 1 := by
  unfold base_execute handle_execution_error
  rw [h]
  exact ⟨rfl, rfl⟩

/-- Witness for C9 at a concrete execution without a current task. -/
theorem C9_witness :
    (base_execute { execution_count := 0, error_count := 0 } "AgentY"
        { message := { content := "hi", agent_id := "user", task_id := "", context_id := "c0" }
          contextId := "c0"
          current_task := none }
        (ImplOutcome.raises "crash")).2 = ([] : List TaskStatusUpdateEvent) :=
  (C9_error_without_task_publishes_nothing { execution_count := 0, error_count := 0 }
    "AgentY" "crash"
    { message := { content := "hi", agent_id := "user", task_id := "", context_id := "c0" }
      contextId := "c0"
      current_task := none } rfl).1

/-- C10: `clear_context` on a context id absent from the context store
returns `False` and mutates nothing: the whole system state — context
store, event buffer, task store — is returned unchanged, because the
cascade steps run only after a successful context delete. -/
theorem C10_clear_absent_context_no_mutation (s : SystemState) (cid : String)
    (h : dcontains s.contexts cid = false) :
    clear_context s cid = (false, s) := by
  unfold clear_context delete_context
  rw [h]
  rfl

/-- Witness for C10 on a concrete populated state whose stores carry data
for a different context. -/
theorem C10_witness :
    clear_context
        { contexts := [("c1",
            { id := "c1", session_id := "s1", user_id := none
              conversation_history := [], updated_at := 0 })]
          queue :=
            { max_size := 10
              events := [{ id := "e1", type := EventType.task_created
                           contextId := "c1", timestamp := 3 }] }
          tasks := [("t1",
            { id := "t1", contextId := "c1", state := TaskState.working
              assigned_agent := none, created_at := 1, updated_at := 1
              last_message := none })] }
        "missing"
      = (false,
         { contexts := [("c1",
             { id := "c1", session_id := "s1", user_id := none
               conversation_history := [], updated_at := 0 })]
           queue :=
             { max_size := 10
               events := [{ id := "e1", type := EventType.task_created
                            contextId := "c1", timestamp := 3 }] }
           tasks := [("t1",
             { id := "t1", contextId := "c1", state := TaskState.working
               assigned_agent := none, created_at := 1, updated_at := 1
               last_message := none })] }) :=
  C10_clear_absent_context_no_mutation
    { contexts := [("c1",
        { id := "c1", session_id := "s1", user_id := none
          conversation_history := [], updated_at := 0 })]
      queue :=
        { max_size := 10
          events := [{ id := "e1", type := EventType.task_created
                       contextId := "c1", timestamp := 3 }] }
      tasks := [("t1",
        { id := "t1", contextId := "c1", state := TaskState.working
          assigned_agent := none, created_at := 1, updated_at := 1
          last_message := none })] }
    "missing" (by decide)

/-- C1 counterexample: a completed (terminal) task is moved back to the
non-terminal `working` state by the status-update listener, because
`_handle_task_status_update` copies the event's state into the task
unconditionally and `update_task` stores whatever record it is handed —
neither has a terminal-state guard. -/
theorem C1_counterexample :
    (get_task
        [("t1", { id := "t1", contextId := "c1", state := TaskState.completed
                  assigned_agent := none, created_at := 0, updated_at := 0
                  last_message := none })] "t1").map
        (fun t => t.state.isTerminal) = some true ∧
    (get_task
        (handle_task_status_update
          [("t1", { id := "t1", contextId := "c1", state := TaskState.completed
                    assigned_agent := none, created_at := 0, updated_at := 0
                    last_message := none })]
          { taskId := "t1"
            status := { state := TaskState.working, message := none
                        error_details := none }
            final := false
            contextId := "c1" }
          5) "t1").map (fun t => t.state) = some TaskState.working ∧
    TaskState.working.isTerminal = false := by
  refine ⟨rfl, ?_, rfl⟩
  rfl

/-- C1 amended: the status-update listener overwrites the task's state
with the event's state unconditionally (and `update_task` persists the
caller's record as-is), so a terminal state persists only while no further
status-update event arrives for that task — there is no guard keeping
`state` terminal. -/
theorem C1_amended_unconditional_overwrite (store : List (String × Task))
    (event : TaskStatusUpdateEvent) (task : Task) (now : Nat)
    (hid : task.id = event.taskId)
    (h : get_task store event.taskId = some task) :
    get_task (handle_task_status_update store event now) event.taskId =
      some { task with
             state := event.status.state
             updated_at := now
             last_message :=
               match event.status.message with
               | some m => some m.content
               | none => task.last_message } := by
  have h' : dget store event.taskId = some task := h
  have hcont : dcontains store event.taskId = true :=
    dcontains_of_dget store event.taskId task h'
  unfold get_task handle_task_status_update update_task get_task
  rw [h']
  show dget
      (if dcontains store
          ({ task with
             state := event.status.state
             updated_at := now
             last_message :=
               match event.status.message with
               | some m => some m.content
               | none => task.last_message } : Task).id = true then
        dset store
          ({ task with
             state := event.status.state
             updated_at := now
             last_message :=
               match event.status.message with
               | some m => some m.content
               | none => task.last_message } : Task).id
          { task with
            state := event.status.state
            updated_at := now
            last_message :=
              match event.status.message with
              | some m => some m.content
              | none => task.last_message }
      else store) event.taskId = _
  rw [show ({ task with
        state := event.status.state
        updated_at := now
        last_message :=
          match event.status.message with
          | some m => some m.content
          | none => task.last_message } : Task).id = event.taskId from hid]
  rw [if_pos hcont]
  exact dget_dset_self store event.taskId _

/-- Witness for C1's amended statement: a failed (terminal) task is set to
`input_required` (non-terminal) by a later status-update event. -/
theorem C1_witness :
    get_task
        (handle_task_status_update
          [("t2", { id := "t2", contextId := "c2", state := TaskState.failed
                    assigned_agent := none, created_at := 0, updated_at := 3
                    last_message := none })]
          { taskId := "t2"
            status := { state := TaskState.input_required, message := none
                        error_details := none }
            final := false
            contextId := "c2" }
          9) "t2" =
      some { id := "t2", contextId := "c2", state := TaskState.input_required
             assigned_agent := none, created_at := 0, updated_at := 9
             last_message := none } :=
  C1_amended_unconditional_overwrite
    [("t2", { id := "t2", contextId := "c2", state := TaskState.failed
              assigned_agent := none, created_at := 0, updated_at := 3
              last_message := none })]
    { taskId := "t2"
      status := { state := TaskState.input_required, message := none
                  error_details := none }
      final := false
      contextId := "c2" }
    { id := "t2", contextId := "c2", state := TaskState.failed
      assigned_agent := none, created_at := 0, updated_at := 3
      last_message := none }
    9 rfl rfl

theorem enqueue_event_max_size (q : EventQueueState) (e : BaseEvent) :
    (enqueue_event q e).max_size = q.max_size := rfl

theorem enqueue_event_length_le (q : EventQueueState) (e : BaseEvent) :
    (enqueue_event q e).events.length ≤ q.max_size ∨ q.max_size = 0 ∧
      (enqueue_event q e).events.length ≤ q.max_size := by
  left
  unfold enqueue_event
  simp only [List.length_drop, List.length_append, List.length_singleton]
  omega

theorem foldl_enqueue_bounded (evs : List BaseEvent) (q : EventQueueState)
    (h : q.events.length ≤ q.max_size) :
    (evs.foldl enqueue_event q).events.length ≤ q.max_size ∧
    (evs.foldl enqueue_event q).max_size = q.max_size := by
  induction evs generalizing q with
  | nil => exact ⟨h, rfl⟩
  | cons e evs ih =>
    simp only [List.foldl_cons]
    have hb : (enqueue_event q e).events.length ≤ (enqueue_event q e).max_size := by
      rw [enqueue_event_max_size]
      exact (enqueue_event_length_le q e).elim id (fun x => x.2)
    exact (ih (enqueue_event q e) hb).imp id id

theorem mem_of_mem_query (q : EventQueueState) (cid : String) (e : BaseEvent)
    (h : e ∈ get_events_for_context q cid none none) : e ∈ q.events := by
  unfold get_events_for_context at h
  simp only at h
  rw [List.mem_mergeSort] at h
  exact (List.mem_filter.mp h).1

/-- C5: the buffered event count never exceeds the configured `max_size`
under any sequence of `enqueue_event` calls, and a publish at capacity
evicts the oldest buffered event first, so that event is no longer
retrievable via the `query` operation (`get_events_for_context`). -/
theorem C5_bounded_buffer_evicts_oldest (q : EventQueueState)
    (e old : BaseEvent) (evs rest : List BaseEvent) :
    (q.events.length ≤ q.max_size →
      (evs.foldl enqueue_event q).events.length ≤ q.max_size ∧
      (evs.foldl enqueue_event q).max_size = q.max_size) ∧
    (q.events = old :: rest → q.events.length = q.max_size →
      old ∉ rest → old ≠ e →
      (enqueue_event q e).events = rest ++ [e] ∧
      old ∉ (enqueue_event q e).events ∧
      old ∉ get_events_for_context (enqueue_event q e) old.contextId none none) := by
  constructor
  · intro h
    exact foldl_enqueue_bounded evs q h
  · intro hq hlen hrest hne
    have hev : (enqueue_event q e).events = rest ++ [e] := by
      unfold enqueue_event
      rw [hq]
      have hdrop : (old :: rest).length + 1 - q.max_size = 1 := by
        rw [← hq, hlen]
        omega
      rw [hdrop]
      rfl
    have hmem : old ∉ (enqueue_event q e).events := by
      rw [hev]
      intro hc
      rcases List.mem_append.mp hc with h1 | h1
      · exact hrest h1
      · exact hne (List.mem_singleton.mp h1)
    refine ⟨hev, hmem, ?_⟩
    intro hc
    exact hmem (mem_of_mem_query (enqueue_event q e) old.contextId old hc)

/-- Witness for C5 at a concrete queue of capacity 2 holding events
`e1, e2`: publishing `e3` evicts `e1`. -/
theorem C5_witness :
    (enqueue_event
        { max_size := 2
          events := [{ id := "e1", type := EventType.task_created, contextId := "c1", timestamp := 1 },
                     { id := "e2", type := EventType.agent_heartbeat, contextId := "c1", timestamp := 2 }] }
        { id := "e3", type := EventType.system_error, contextId := "c1", timestamp := 3 }).events
      = [{ id := "e2", type := EventType.agent_heartbeat, contextId := "c1", timestamp := 2 },
         { id := "e3", type := EventType.system_error, contextId := "c1", timestamp := 3 }] ∧
    ({ id := "e1", type := EventType.task_created, contextId := "c1", timestamp := 1 } : BaseEvent) ∉
      get_events_for_context
        (enqueue_event
          { max_size := 2
            events := [{ id := "e1", type := EventType.task_created, contextId := "c1", timestamp := 1 },
                       { id := "e2", type := EventType.agent_heartbeat, contextId := "c1", timestamp := 2 }] }
          { id := "e3", type := EventType.system_error, contextId := "c1", timestamp := 3 })
        "c1" none none :=
  have h := (C5_bounded_buffer_evicts_oldest
    { max_size := 2
      events := [{ id := "e1", type := EventType.task_created, contextId := "c1", timestamp := 1 },
                 { id := "e2", type := EventType.agent_heartbeat, contextId := "c1", timestamp := 2 }] }
    { id := "e3", type := EventType.system_error, contextId := "c1", timestamp := 3 }
    { id := "e1", type := EventType.task_created, contextId := "c1", timestamp := 1 }
    []
    [{ id := "e2", type := EventType.agent_heartbeat, contextId := "c1", timestamp := 2 }]).2
    rfl rfl (by decide) (by decide)
  ⟨h.1, h.2.2⟩

theorem keysNodup_foldl_dset (l : List (String × String))
    (b : List (String × String)) (h : keysNodup b) :
    keysNodup (l.foldl (fun acc e => dset acc e.1 e.2) b) := by
  induction l generalizing b with
  | nil => exact h
  | cons e l ih =>
    simp only [List.foldl_cons]
    exact ih (dset b e.1 e.2) (keysNodup_dset b e.1 e.2 h)

theorem keysNodup_of_mem_scanl_dset (l : List (String × String))
    (b : List (String × String)) (h : keysNodup b) :
    ∀ s ∈ List.scanl (fun acc e => dset acc e.1 e.2) b l, keysNodup s := by
  induction l generalizing b with
  | nil =>
    intro s hs
    simp only [List.scanl] at hs
    simp only [List.mem_singleton] at hs
    subst hs
    exact h
  | cons e l ih =>
    intro s hs
    simp only [List.scanl] at hs
    rcases List.mem_cons.mp hs with h1 | h1
    · subst h1
      exact h
    · exact ih (dset b e.1 e.2) (keysNodup_dset b e.1 e.2 h) s h1

/-- C8: for a task id routed by the coordinator, the `active_handoffs`
tracking map holds at most one entry for any key at every instant of
`_route_to_agent` (dispatch recording, mid-flight handoff re-pointing, and
cleanup), and after the delegate's `execute` returns — normally or by
raising — the entry for that task id is gone: the `except` and `finally`
blocks both delete it, so it is never leaked. -/
theorem C8_tracking_map_lifecycle (m : List (String × String))
    (task_id domain0 : String) (handoffEvents : List (String × String))
    (h : keysNodup m) :
    (∀ s ∈ route_states m task_id domain0 handoffEvents,
      ∀ k, s.countP (fun p => p.1 == k) ≤ 1) ∧
    (registeredAgents.contains (resolve_dispatch_domain domain0) = true →
      dget (route_to_agent_map m task_id domain0 handoffEvents) task_id = none) := by
  constructor
  · intro s hs k
    refine countKey_le_one s k ?_
    unfold route_states at hs
    by_cases hc : registeredAgents.contains (resolve_dispatch_domain domain0)
    · rw [if_pos hc] at hs
      rcases List.mem_append.mp hs with h1 | h1
      · rcases List.mem_cons.mp h1 with h2 | h2
        · subst h2
          exact h
        · exact keysNodup_of_mem_scanl_dset handoffEvents
            (dset m task_id (resolve_dispatch_domain domain0))
            (keysNodup_dset m task_id _ h) s h2
      · rw [List.mem_singleton] at h1
        subst h1
        unfold route_to_agent_map
        rw [if_pos hc]
        exact keysNodup_ddel _ _
          (keysNodup_foldl_dset handoffEvents _ (keysNodup_dset m task_id _ h))
    · rw [if_neg hc] at hs
      rw [List.mem_singleton] at hs
      subst hs
      exact h
  · intro hc
    unfold route_to_agent_map
    rw [if_pos hc]
    exact dget_ddel_self _ task_id

/-- Witness for C8: dispatch of task `t1` to the registered
`orchestrator` domain, with one mid-flight handoff event re-pointing `t1`
to `video_agent`; after `_route_to_agent` the tracking entry is gone. -/
theorem C8_witness :
    dget (route_to_agent_map [] "t1" "orchestrator" [("t1", "video_agent")]) "t1"
      = none :=
  (C8_tracking_map_lifecycle [] "t1" "orchestrator" [("t1", "video_agent")]
    (by simp [keysNodup])).2 (by decide)

theorem handle_request_existing (cs : List (String × TaskContext))
    (m sid fid : String) (uid : Option String) (cid : String) (now : Nat)
    (c : TaskContext) (hne : cid.isEmpty = false)
    (hc : get_context cs cid = some c) :
    handle_request cs m sid uid (some cid) fid now =
      Except.ok (update_context cs (add_to_conversation_history c "user" m now) now,
                 add_to_conversation_history c "user" m now) := by
  unfold handle_request
  simp [hne, hc]

theorem get_context_update (cs : List (String × TaskContext))
    (c c' : TaskContext) (now : Nat) (cid : String)
    (hc : get_context cs cid = some c) (hid : c'.id = cid) :
    get_context (update_context cs c' now) cid =
      some { c' with updated_at := now } := by
  unfold get_context update_context
  have hcont : dcontains cs c'.id = true := by
    rw [hid]
    exact dcontains_of_dget cs cid c hc
  rw [if_pos hcont, hid]
  exact dget_dset_self cs cid _

/-- C4: within a single context, each `handle_request` appends the inbound
user message to `conversation_history` synchronously (before the executor
launch), so after `n` sequential calls the history is the original history
followed by the `n` user entries in arrival order — the length never
decreases and no entry is reordered or dropped. -/
theorem C4_history_append_in_order (cid sid : String)
    (msgs : List (String × Nat)) (hne : cid.isEmpty = false) :
    ∀ (cs : List (String × TaskContext)) (c : TaskContext),
      c.id = cid → get_context cs cid = some c →
      (handle_requests_seq cs cid sid msgs).map
          (fun cs' => (get_context cs' cid).map (fun x => x.conversation_history))
        = Except.ok (some (c.conversation_history ++ userEntries msgs)) := by
  induction msgs with
  | nil =>
    intro cs c _ hc
    simp [handle_requests_seq, hc, userEntries, Except.map]
  | cons p rest ih =>
    obtain ⟨m, now⟩ := p
    intro cs c hid hc
    have hr := handle_request_existing cs m sid "" none cid now c hne hc
    simp only [handle_requests_seq, hr]
    have hid' : (add_to_conversation_history c "user" m now).id = cid := hid
    have hc' := get_context_update cs c
      (add_to_conversation_history c "user" m now) now cid hc hid'
    have hstep := ih (update_context cs (add_to_conversation_history c "user" m now) now)
      { add_to_conversation_history c "user" m now with updated_at := now }
      hid' hc'
    rw [hstep]
    simp [add_to_conversation_history, userEntries]

/-- Witness for C4: two sequential requests on context `c1` leave exactly
the two user entries in arrival order. -/
theorem C4_witness :
    (handle_requests_seq
        [("c1", { id := "c1", session_id := "s1", user_id := none
                  conversation_history := [], updated_at := 0 })]
        "c1" "s1" [("first message", 1), ("second message", 2)]).map
        (fun cs' => (get_context cs' "c1").map (fun x => x.conversation_history))
      = Except.ok (some
          ([] ++ userEntries [("first message", 1), ("second message", 2)])) :=
  C4_history_append_in_order "c1" "s1" [("first message", 1), ("second message", 2)]
    (by decide)
    [("c1", { id := "c1", session_id := "s1", user_id := none
              conversation_history := [], updated_at := 0 })]
    { id := "c1", session_id := "s1", user_id := none
      conversation_history := [], updated_at := 0 }
    rfl rfl

/-- C7 counterexample: an empty inbound message is NOT rejected —
`handle_request` has no message validation at all: the call succeeds and
an empty `"user"` entry is appended to the conversation history, refuting
the claim's empty-message half. -/
theorem C7_counterexample :
    (handle_request
        [("c1", { id := "c1", session_id := "s1", user_id := none
                  conversation_history := [], updated_at := 0 })]
        "" "s1" none (some "c1") "f1" 7).isOk = true ∧
    (get_context
        (handle_request_store
          [("c1", { id := "c1", session_id := "s1", user_id := none
                    conversation_history := [], updated_at := 0 })]
          "" "s1" none (some "c1") "f1" 7) "c1").map
        (fun c => c.conversation_history)
      = some [{ role := "user", content := "", timestamp := 7 }] :=
  ⟨rfl, rfl⟩

/-- C7 amended: only the unknown-explicit-contextId half of the claim
holds — such a call is rejected synchronously (`ValueError`) before any
mutation, so no history entry is appended, no task is created and no
executor is launched; an empty message is not validated and proceeds
normally. -/
theorem C7_amended_unknown_context_rejected (cs : List (String × TaskContext))
    (m sid fid : String) (uid : Option String) (cid : String) (now : Nat)
    (hne : cid.isEmpty = false) (h : get_context cs cid = none) :
    handle_request cs m sid uid (some cid) fid now
      = Except.error ("Context " ++ cid ++ " not found") ∧
    handle_request_store cs m sid uid (some cid) fid now = cs := by
  have herr : handle_request cs m sid uid (some cid) fid now
      = Except.error ("Context " ++ cid ++ " not found") := by
    unfold handle_request
    simp [hne, h]
  refine ⟨herr, ?_⟩
  unfold handle_request_store
  rw [herr]

/-- Witness for C7's amended statement at a concrete unknown context id. -/
theorem C7_witness :
    handle_request
        [("c1", { id := "c1", session_id := "s1", user_id := none
                  conversation_history := [], updated_at := 0 })]
        "hello" "s1" none (some "nope") "f1" 4
      = Except.error ("Context " ++ "nope" ++ " not found") ∧
    handle_request_store
        [("c1", { id := "c1", session_id := "s1", user_id := none
                  conversation_history := [], updated_at := 0 })]
        "hello" "s1" none (some "nope") "f1" 4
      = [("c1", { id := "c1", session_id := "s1", user_id := none
                  conversation_history := [], updated_at := 0 })] :=
  C7_amended_unknown_context_rejected
    [("c1", { id := "c1", session_id := "s1", user_id := none
              conversation_history := [], updated_at := 0 })]
    "hello" "s1" "f1" none "nope" 4 (by decide) rfl

end A2A
